import Mathlib

/-!
Verification of the mesh-template subnet coordination code.

This file gives a shallow embedding, in Lean 4, of the parts of the
repository needed to settle the frozen claims: the consensus comparison
logic (`src/mesh/subnet/consensus/consensus.py`), the per-epoch
propose-or-attest loop, the subnet-activation loop, the commit-reveal
DHT admission predicate (`src/mesh/subnet/utils/mock_commit_reveal.py`),
the proof-of-stake authorizer (`src/mesh/utils/authorizers/pos_auth.py`)
and the rate-limiting authorizer
(`src/mesh/utils/authorizers/rate_limit.py`).

Conventions used throughout:
* Python floats are modelled as rationals (`ℚ`); the comparisons the
  claims exercise are far from any binary-rounding boundary.
* Chain responses that may be `None`, an integer, or the literal string
  `'None'` are modelled by the three-valued type `CVal`, so that the
  sentinel comparisons of the source are reproduced exactly.
* Unbounded `while` loops are modelled as fuel-indexed recursions
  returning `Option`: `none` means the loop has not terminated within
  the given fuel.
* A fixed set of chain responses is modelled as streams, one per RPC,
  indexed by the number of calls made to that RPC so far.
-/

namespace MeshModel

/-- A consensus score entry: the Python dict
`{"subnet_node_id": ..., "score": ...}` from `Consensus.get_scores`.
Two dicts are equal iff both fields agree, matching the
`frozenset(d.items())` conversion in `compare_consensus_data`. -/
structure Score where
  subnet_node_id : Int
  score : Int
deriving DecidableEq, Repr

/-- The fields of the on-chain `ConsensusData` record used by
`compare_consensus_data` and `run_consensus`
(`src/mesh/substrate/chain_data.py`): the attestation map (iterated as
`(id, entry)` pairs), the subnet node list (only its length is used),
and the validator's submitted score list (which the chain may omit). -/
structure ConsensusDataC where
  attests : List (Int × Int)
  subnet_nodes : List Int
  data : Option (List Score)
deriving DecidableEq, Repr

/-- Model of `Consensus._get_attestation_ratio(cd) < 0.66`:
`len(cd.attests) / len(cd.subnet_nodes) < 0.66` computed over ℚ.
The Python `ZeroDivisionError` at `subnet_nodes = []` is outside the
modelled domain; theorems using the ratio assume `subnet_nodes ≠ []`. -/
def attestation_ratio_lt (cd : ConsensusDataC) : Bool :=
  decide ((cd.attests.length : ℚ) / (cd.subnet_nodes.length : ℚ) < 66 / 100)

/-- Model of `Consensus.compare_consensus_data(my_data, validator_data, epoch)`
(`src/mesh/subnet/consensus/consensus.py:110-172`).

State threading: `prev` is `self.previous_epoch_data` on entry (a set of
score entries, or `none` right after a restart); `chain_prev` is the
fixed response of
`self.hypertensor.get_consensus_data_formatted(subnet_id, epoch - 1)`,
which the source fetches only on a mismatch with `prev = None`.
Returns the boolean result together with `self.previous_epoch_data`
on exit. -/
def compare_consensus_data (prev : Option (Finset Score))
    (chain_prev : Option ConsensusDataC)
    (my_data validator_data : List Score) : Bool × Option (Finset Score) :=
  if validator_data.length = 0 ∧ my_data.length = 0 then
    (true, some ∅)
  else
    let validator_data_set := validator_data.toFinset
    let my_data_set := my_data.toFinset
    let success :=
      if validator_data_set = my_data_set then true
      else
        match prev with
        | some p =>
            decide (symmDiff validator_data_set my_data_set ⊆ p)
        | none =>
            match chain_prev with
            | none => false
            | some consensus_data =>
                match consensus_data.data with
                | none => false
                | some previous_epoch_validator_data =>
                    if attestation_ratio_lt consensus_data then false
                    else
                      decide (symmDiff validator_data_set my_data_set ⊆
                        previous_epoch_validator_data.toFinset)
    (success, some my_data_set)

/-- A scalar chain response as the Python sentinel checks see it:
`None`, an integer, or the literal string `'None'`. The source compares
against all three (`is None`, `== None`, `!= 'None'`). -/
inductive CVal
  | pyNone
  | num (n : Int)
  | strNone
deriving DecidableEq, Repr

/-- Fixed chain responses for one `run_consensus(current_epoch)` call,
one stream per RPC, indexed by how many calls to that RPC were made:
`validatorAt` for `get_rewards_validator(subnet_id, current_epoch)`,
`epochAt` for `get_subnet_epoch_data(slot).epoch`,
`consensusAt` for `get_consensus_data_formatted(subnet_id, current_epoch)`,
`prevConsensus` for `get_consensus_data_formatted(subnet_id, epoch - 1)`
(fetched inside `compare_consensus_data`), and `attestOkAt` for the
`receipt.is_success` of successive `attest` extrinsics. -/
structure RunEnv where
  validatorAt : Nat → CVal
  epochAt : Nat → Int
  consensusAt : Nat → Option ConsensusDataC
  prevConsensus : Option ConsensusDataC
  attestOkAt : Nat → Bool

/-- The on-chain transactions a `run_consensus` execution emits. -/
inductive ChainAction
  | propose (data : List Score)
  | attest (is_success : Bool)
deriving DecidableEq, Repr

/-- Counts the `propose_attestation` calls in an action trace. -/
def proposeCount (acts : List ChainAction) : Nat :=
  acts.countP (fun a => match a with | ChainAction.propose _ => true | _ => false)

/-- Counts the `attest` calls whose receipt reported success. -/
def attestSuccessCount (acts : List ChainAction) : Nat :=
  acts.countP (fun a => match a with | ChainAction.attest ok => ok | _ => false)

/-- Counts all `attest` calls in an action trace. -/
def attestCount (acts : List ChainAction) : Nat :=
  acts.countP (fun a => match a with | ChainAction.attest _ => true | _ => false)

/-- The `while not self.stop.is_set()` polling loop of
`Consensus.run_consensus` (`consensus.py:343-357`) that resolves the
elected validator. Per iteration: call `get_rewards_validator`, then
`get_subnet_epoch_data`; if the epoch moved past `current_epoch`, set
`validator = None` and break; otherwise break when
`validator is not None or validator != 'None'`; otherwise sleep one
block and retry. Returns the resolved value together with the
next indices into the validator and epoch streams; `none` = fuel ran
out while the loop was still polling. -/
def resolveValidatorLoop (current_epoch : Int) (env : RunEnv) :
    Nat → Nat → Nat → Option (CVal × Nat × Nat)
  | _, _, 0 => none
  | vIdx, eIdx, fuel + 1 =>
      let validator := env.validatorAt vIdx
      let e := env.epochAt eIdx
      if e ≠ current_epoch then some (CVal.pyNone, vIdx + 1, eIdx + 1)
      else if validator ≠ CVal.pyNone ∨ validator ≠ CVal.strNone then
        some (validator, vIdx + 1, eIdx + 1)
      else resolveValidatorLoop current_epoch env (vIdx + 1) (eIdx + 1) fuel

/-- The attestor branch's `while not self.stop.is_set()` loop
(`consensus.py:396-436`). Loop state: the cached `consensus_data`
(fetched only while `None`), `self.previous_epoch_data`, the stream
indices, and the actions emitted so far (newest first).
When the validator's posted `data` field is `None` the source raises a
`TypeError` inside `compare_consensus_data` (caught in `run_forever`),
emitting no attest; the model compares against `[]` there, which also
emits no attest under the theorems' hypotheses. -/
def attestorLoop (current_epoch : Int) (subnet_node_id : Int)
    (scores : List Score) (env : RunEnv) :
    Option ConsensusDataC → Option (Finset Score) → Nat → Nat → Nat →
      List ChainAction → Nat →
      Option (List ChainAction × Option (Finset Score))
  | _, _, _, _, _, _, 0 => none
  | consensus_data, prev, cIdx, eIdx, aIdx, acc, fuel + 1 =>
      let fetched :=
        match consensus_data with
        | none => (env.consensusAt cIdx, cIdx + 1)
        | some d => (some d, cIdx)
      let cd := fetched.1
      let cIdx := fetched.2
      let e := env.epochAt eIdx
      let eIdx := eIdx + 1
      if e ≠ current_epoch then some (acc.reverse, prev)
      else
        match cd with
        | none =>
            attestorLoop current_epoch subnet_node_id scores env
              none prev cIdx eIdx aIdx acc fuel
        | some d =>
            let validator_data := d.data.getD []
            let cmp := compare_consensus_data prev env.prevConsensus
              scores validator_data
            if cmp.1 then
              if subnet_node_id ∈ d.attests.map Prod.fst then
                some (acc.reverse, cmp.2)
              else
                let is_success := env.attestOkAt aIdx
                let acc := ChainAction.attest is_success :: acc
                if is_success then some (acc.reverse, cmp.2)
                else
                  attestorLoop current_epoch subnet_node_id scores env
                    (some d) cmp.2 cIdx eIdx (aIdx + 1) acc fuel
            else some (acc.reverse, cmp.2)

/-- Model of `Consensus.run_consensus(current_epoch)`
(`src/mesh/subnet/consensus/consensus.py:320-436`) for a node with
on-chain id `subnet_node_id`, with `scores = self.get_scores(...)`
fixed and `prev` the entry value of `self.previous_epoch_data`.
Returns the emitted chain actions and the exit value of
`self.previous_epoch_data`; `none` = fuel exhausted. The source calls
`propose_attestation(self.subnet_id, data=scores)` in both the empty
and the non-empty score branch. -/
def run_consensus (current_epoch : Int) (subnet_node_id : Int)
    (scores : List Score) (prev : Option (Finset Score)) (env : RunEnv)
    (fuel : Nat) : Option (List ChainAction × Option (Finset Score)) :=
  match resolveValidatorLoop current_epoch env 0 0 fuel with
  | none => none
  | some (validator, _, eIdx) =>
      if validator = CVal.pyNone then some ([], prev)
      else if validator = CVal.num subnet_node_id then
        match env.consensusAt 0 with
        | some _ => some ([], prev)
        | none => some ([ChainAction.propose scores], prev)
      else
        attestorLoop current_epoch subnet_node_id scores env
          none prev 0 eIdx 0 [] fuel

/-- Fixed chain responses for `Consensus.run_activate_subnet`:
`slotAt` for successive `get_subnet_slot(subnet_id)` calls,
`actEpochAt` for successive `get_epoch_data().epoch` values, and
`infoAt` for successive `get_formatted_subnet_info(subnet_id)` results
(the state string of the subnet, or `none` for chain not-found). -/
structure ActivateEnv where
  slotAt : Nat → CVal
  actEpochAt : Nat → Int
  infoAt : Nat → Option String

/-- Result of a terminated `run_activate_subnet` loop: the returned
`subnet_active` flag, whether `self.shutdown()` was called (stop event
set), and how many `get_formatted_subnet_info` calls were made. -/
structure ActivateResult where
  subnet_active : Bool
  shutdown_called : Bool
  info_calls : Nat
deriving DecidableEq, Repr

/-- The `while not self.stop.is_set()` loop of
`Consensus.run_activate_subnet` (`consensus.py:189-236`), fuelled.
Loop state: `self.slot` (set once from the first usable
`get_subnet_slot` answer; a `None`/`'None'` answer sleeps a block and
`continue`s, consuming an iteration), `last_epoch`, `errors_count`, and
the stream indices. Within an iteration whose slot check falls
through, the epoch is fetched; on a new epoch with a `None` subnet
info the loop either shuts down (when `errors_count > max_errors = 3`)
or increments `errors_count`; an `"Active"` state breaks with success;
otherwise `last_epoch` is updated and the loop sleeps to the next
epoch. -/
def activateLoop (env : ActivateEnv) :
    Option Int → Option Int → Nat → Nat → Nat → Nat → Nat →
      Option ActivateResult
  | _, _, _, _, _, _, 0 => none
  | slot, last_epoch, errors_count, sIdx, eIdx, iIdx, fuel + 1 =>
      let slotStep : Option Int × Nat × Bool :=
        match slot with
        | some n => (some n, sIdx, false)
        | none =>
            match env.slotAt sIdx with
            | CVal.num n => (some n, sIdx + 1, false)
            | CVal.pyNone => (none, sIdx + 1, true)
            | CVal.strNone => (none, sIdx + 1, true)
      if slotStep.2.2 then
        activateLoop env slotStep.1 last_epoch errors_count
          slotStep.2.1 eIdx iIdx fuel
      else
        let slot := slotStep.1
        let sIdx := slotStep.2.1
        let current_epoch := env.actEpochAt eIdx
        let eIdx := eIdx + 1
        if some current_epoch ≠ last_epoch then
          match env.infoAt iIdx with
          | none =>
              if errors_count > 3 then
                some ⟨false, true, iIdx + 1⟩
              else
                activateLoop env slot (some current_epoch)
                  (errors_count + 1) sIdx eIdx (iIdx + 1) fuel
          | some state =>
              if state = "Active" then some ⟨true, false, iIdx + 1⟩
              else
                activateLoop env slot (some current_epoch) errors_count
                  sIdx eIdx (iIdx + 1) fuel
        else
          activateLoop env slot last_epoch errors_count sIdx eIdx iIdx fuel

/-- Model of `Consensus.run_activate_subnet` with `skip_activate_subnet = False`
(`src/mesh/subnet/consensus/consensus.py:177-236`), starting from a
fresh loop state. -/
def run_activate_subnet (env : ActivateEnv) (fuel : Nat) :
    Option ActivateResult :=
  activateLoop env none none 0 0 0 0 fuel

/-! ## Commit-reveal admission predicate

`src/mesh/subnet/utils/mock_commit_reveal.py`:
`MockHypertensorCommitReveal.__call__`. -/

/-- A DHT record key as compared by `_get_key_type`'s `valid_keys`
lookup: `DHTID.generate(source=s).to_bytes()` hashing is injective
on sources, so the lookup is by the source string; keys other than
`"node"`, `f"commit_epoch_{e}"` and `f"reveal_epoch_{e}"` are
represented by `other`. -/
inductive DhtKey
  | node
  | commitEpoch (e : Int)
  | revealEpoch (e : Int)
  | other (s : String)
deriving DecidableEq, Repr

/-- The key-type tags of `_get_key_type` / `per_peer_epoch_limits`. -/
inductive KeyType
  | node
  | commit
  | reveal
deriving DecidableEq, Repr

/-- Model of `self.per_peer_epoch_limits` (`mock_commit_reveal.py:76-80`). -/
def per_peer_epoch_limits : KeyType → Nat
  | KeyType.node => 100
  | KeyType.commit => 1
  | KeyType.reveal => 1

/-- Model of `_get_key_type(record, current_epoch)` (`mock_commit_reveal.py:136-152`):
the record key must be one of the three valid sources, with the
commit/reveal epoch equal to the current epoch. -/
def get_key_type (key : DhtKey) (current_epoch : Int) : Option KeyType :=
  match key with
  | DhtKey.node => some KeyType.node
  | DhtKey.commitEpoch e =>
      if e = current_epoch then some KeyType.commit else none
  | DhtKey.revealEpoch e =>
      if e = current_epoch then some KeyType.reveal else none
  | DhtKey.other _ => none

/-- Model of `self._peer_store_tracker`: per-epoch, per-key-type, per-peer store
counters, as an association list (absent = 0, the defaultdict default). -/
def Tracker := List ((Int × KeyType × String) × Nat)

/-- Lookup in the store tracker with the defaultdict default of 0. -/
def trackerCount (t : Tracker) (epoch : Int) (kt : KeyType)
    (peer : String) : Nat :=
  match t.lookup (epoch, kt, peer) with
  | some n => n
  | none => 0

/-- Model of `_record_peer_store` (`mock_commit_reveal.py:113-120`): increment the
counter for `(epoch, key_type, peer)`. -/
def record_peer_store (t : Tracker) (epoch : Int) (kt : KeyType)
    (peer : String) : Tracker :=
  ((epoch, kt, peer), trackerCount t epoch kt peer + 1) ::
    t.filter (fun e => e.1 ≠ (epoch, kt, peer))

/-- Model of `_cleanup_old_epochs` (`mock_commit_reveal.py:122-134`): drop entries
whose epoch is `< current_epoch - MAX_EPOCH_HISTORY` with
`MAX_EPOCH_HISTORY = 5`. -/
def cleanup_old_epochs (t : Tracker) (current_epoch : Int) : Tracker :=
  t.filter (fun e => ¬ e.1.1 < current_epoch - 5)

/-- Model of `_has_exceeded_store_limit` (`mock_commit_reveal.py:99-111`):
true when the peer's counter has reached the per-epoch limit. -/
def has_exceeded_store_limit (t : Tracker) (peer : String)
    (kt : KeyType) (epoch : Int) : Bool :=
  per_peer_epoch_limits kt ≤ trackerCount t epoch kt peer

/-- Model of `COMMIT_DEADLINE` (`mock_commit_reveal.py:33`). -/
def COMMIT_DEADLINE : ℚ := 1 / 2

/-- Model of `REVEAL_DEADLINE` (`mock_commit_reveal.py:34`). -/
def REVEAL_DEADLINE : ℚ := 3 / 5

/-- A DHT record as seen by the predicate: its key, the peer id that
`extract_peer_id_from_record_validator(record.subkey)` yields (or
`none`), and its `expiration_time`. -/
structure DhtRecordM where
  key : DhtKey
  caller_peer_id : Option String
  expiration_time : ℚ

/-- The two `DHTRecordRequestType`s the predicate distinguishes. -/
inductive RequestType
  | GET
  | POST
deriving DecidableEq, Repr

/-- The environment of one predicate call: the current subnet epoch
and its elapsed fraction (from `get_subnet_epoch_data`), the DHT wall
clock, and the expiration caps `MAX_HEART_BEAT_TIME`,
`MAX_COMMIT_TIME`, `MAX_REVEAL_TIME` (products of the out-of-scope
constants `BLOCK_SECS` and `EPOCH_LENGTH`, kept as parameters). -/
structure PredEnv where
  current_epoch : Int
  percent_complete : ℚ
  dht_time : ℚ
  max_heart_beat_time : ℚ
  max_commit_time : ℚ
  max_reveal_time : ℚ

/-- Model of `MockHypertensorCommitReveal.__call__(record, type)`
(`src/mesh/subnet/utils/mock_commit_reveal.py:158-241`): returns the
accept/reject boolean and the updated store tracker. GETs are accepted
as soon as a caller peer id can be extracted; POSTs pass through epoch
cleanup, key-type lookup, the per-peer quota, and the per-key-type
deadline and expiration-cap checks, and on acceptance record the
store. -/
def mock_commit_reveal_call (env : PredEnv) (t : Tracker)
    (record : DhtRecordM) (ty : RequestType) : Bool × Tracker :=
  match record.caller_peer_id with
  | none => (false, t)
  | some caller_peer_id =>
      if ty = RequestType.GET then (true, t)
      else
        let t := cleanup_old_epochs t env.current_epoch
        match get_key_type record.key env.current_epoch with
        | none => (false, t)
        | some key_type =>
            if has_exceeded_store_limit t caller_peer_id key_type
                env.current_epoch then (false, t)
            else
              let accept : Bool :=
                match key_type with
                | KeyType.node =>
                    decide (¬ record.expiration_time >
                      env.dht_time + env.max_heart_beat_time)
                | KeyType.commit =>
                    decide (¬ env.percent_complete > COMMIT_DEADLINE ∧
                    ¬ record.expiration_time >
                      env.dht_time + env.max_commit_time)
                | KeyType.reveal =>
                    decide (¬ (env.percent_complete ≤ COMMIT_DEADLINE ∨
                       env.percent_complete > REVEAL_DEADLINE) ∧
                    ¬ record.expiration_time >
                      env.dht_time + env.max_reveal_time)
              if accept then
                (true, record_peer_store t env.current_epoch key_type
                  caller_peer_id)
              else (false, t)

/-! ## Proof-of-stake authorizer

`src/mesh/utils/authorizers/pos_auth.py`:
`ProofOfStakeAuthorizer.validate_request`. -/

/-- The `auth` envelope of a request as `validate_request` inspects it:
whether the client signature verifies over the serialized request
(`sign_request` signs with the key whose public part is embedded, so a
freshly signed, untampered request has `sig_valid = true`), whether
`auth.service_public_key` is unset or equals the local public key,
`auth.time`, and `auth.nonce`. -/
structure AuthMsg where
  sig_valid : Bool
  service_pk_matches : Bool
  time : ℚ
  nonce : Nat
deriving DecidableEq, Repr

/-- Outcome of the `self.pos.proof_of_stake(client_public_key)` call:
a normal boolean return, or a raised exception. -/
inductive PosOutcome
  | ok (b : Bool)
  | exn
deriving DecidableEq, Repr

/-- Modelled from the spec: the `TimedStorage` class holding
`self._recent_nonces` is not part of the provided sources (only its
imported but not included); per the spec's timed-storage section, an entry surfaces
from reads only while unexpired, i.e. while `now ≤ expiry`
(entries are "dropped when `expiration_time < now`"). The store is a
list of `(nonce, expiration_time)` pairs. -/
def nonce_seen (store : List (Nat × ℚ)) (now : ℚ) (nonce : Nat) : Bool :=
  store.any (fun e => e.1 = nonce && decide (now ≤ e.2))

/-- Model of `_MAX_CLIENT_SERVICER_TIME_DIFF.total_seconds()` (1 minute). -/
def MAX_CLIENT_SERVICER_TIME_DIFF : ℚ := 60

/-- Model of `ProofOfStakeAuthorizer.validate_request(request)`
(`src/mesh/utils/authorizers/pos_auth.py:81-119`): signature check,
service-key check, clock-skew check (`> 60 s` rejected), two nonce
replay checks (the source repeats the check outside the `freeze()`
scope), then the stake query. A normal return of `proof_of_stake` is
returned as-is, skipping the nonce store; only the exception handler
falls through to `self._recent_nonces.store(nonce, None, now + 180)`
followed by `return True`. Returns the boolean and the nonce store on
exit. -/
def validate_request (store : List (Nat × ℚ)) (now : ℚ) (msg : AuthMsg)
    (pos : PosOutcome) : Bool × List (Nat × ℚ) :=
  if ¬ msg.sig_valid then (false, store)
  else if ¬ msg.service_pk_matches then (false, store)
  else if |msg.time - now| > MAX_CLIENT_SERVICER_TIME_DIFF then
    (false, store)
  else if nonce_seen store now msg.nonce then (false, store)
  else if nonce_seen store now msg.nonce then (false, store)
  else
    match pos with
    | PosOutcome.ok b => (b, store)
    | PosOutcome.exn =>
        (true,
          (msg.nonce, now + MAX_CLIENT_SERVICER_TIME_DIFF * 3) :: store)

/-! ## Rate-limiting authorizer

`src/mesh/utils/authorizers/rate_limit.py`: `RateLimitAuthorizer`,
modelled per peer (every tracking structure of the class is a
per-peer `defaultdict`, and distinct peers never interact). -/

/-- Model of `ThreatLevel` (`rate_limit.py:26-33`). -/
inductive ThreatLevel
  | NORMAL
  | SUSPICIOUS
  | MODERATE
  | HIGH
  | CRITICAL
deriving DecidableEq, Repr

/-- Model of `ThreatLevel.value`. -/
def ThreatLevel.value : ThreatLevel → Nat
  | ThreatLevel.NORMAL => 0
  | ThreatLevel.SUSPICIOUS => 1
  | ThreatLevel.MODERATE => 2
  | ThreatLevel.HIGH => 3
  | ThreatLevel.CRITICAL => 4

/-- Model of `RateLimitConfig` (`rate_limit.py:36-57`), plus whether an
`ip_ban_callback` was supplied to the authorizer. -/
structure RateLimitConfig where
  max_requests_per_second : ℚ
  max_requests_per_minute : Nat
  max_requests_per_hour : Nat
  max_burst : Nat
  suspicious_threshold : ℚ
  blocking_threshold : ℚ
  ip_ban_threshold : ℚ
  short_window : ℚ
  medium_window : ℚ
  long_window : ℚ
  temp_block_duration : ℚ
  extended_block_duration : ℚ
  enable_ip_banning : Bool
  ip_ban_violation_count : Nat
  has_ip_ban_callback : Bool

/-- The dataclass defaults of `RateLimitConfig`, with no
`ip_ban_callback` (its constructor default). -/
def defaultRateLimitConfig : RateLimitConfig :=
  ⟨10, 100, 1000, 20, 3 / 2, 3, 5, 1, 60, 3600, 300, 3600, false, 10,
    false⟩

/-- The per-peer slice of the `RateLimitAuthorizer` state: this peer's
request-timestamp deque (oldest first), stored threat level, entry in
`blocked_peers` (the unblock time) if any, violation count, membership
in `ip_banned_peers`, and the statistics counters. The escalation log
entries for this peer record `(time, old level, new level)`. -/
structure RLState where
  requests : List ℚ
  threat_level : ThreatLevel
  blocked_until : Option ℚ
  violations : Nat
  ip_banned : Bool
  escalations : List (ℚ × ThreatLevel × ThreatLevel)
  total_requests : Nat
  blocked_requests : Nat
deriving DecidableEq, Repr

/-- The fresh (defaultdict) per-peer state. -/
def RLState.initial : RLState :=
  ⟨[], ThreatLevel.NORMAL, none, 0, false, [], 0, 0⟩

/-- Model of `_detect_threat(peer_id, short_count, medium_count, long_count)`
(`rate_limit.py:224-256`): the five-threshold cascade, returning the
detected level, or `none` when no threat is detected. The human-readable
reason strings are only logged and are omitted. -/
def detect_threat (config : RateLimitConfig) (violations : Nat)
    (short_count medium_count long_count : Nat) : Option ThreatLevel :=
  let max_rate := config.max_requests_per_second
  if (short_count : ℚ) > max_rate * config.ip_ban_threshold ∨
      violations ≥ config.ip_ban_violation_count then
    some ThreatLevel.CRITICAL
  else if (short_count : ℚ) > max_rate * config.blocking_threshold then
    some ThreatLevel.HIGH
  else if medium_count ≥ config.max_requests_per_minute then
    some ThreatLevel.MODERATE
  else if long_count ≥ config.max_requests_per_hour then
    some ThreatLevel.MODERATE
  else if short_count ≥ config.max_burst then
    some ThreatLevel.SUSPICIOUS
  else if (short_count : ℚ) > max_rate * config.suspicious_threshold then
    some ThreatLevel.SUSPICIOUS
  else none

/-- Model of `_block_peer(peer_id, duration)` (`rate_limit.py:288-292`). -/
def block_peer (st : RLState) (now duration : ℚ) : RLState :=
  { st with blocked_until := some (now + duration) }

/-- Model of `_handle_threat(peer_id, threat_level, reason)`
(`rate_limit.py:258-286`): escalate the stored level only when the
detected level is strictly greater, bump the violation count, then act
on the detected level — SUSPICIOUS only logs, MODERATE and HIGH block
temporarily, CRITICAL IP-bans when enabled and a callback exists, else
blocks for 24 h. -/
def handle_threat (config : RateLimitConfig) (st : RLState) (now : ℚ)
    (threat_level : ThreatLevel) : RLState :=
  let st :=
    if threat_level.value > st.threat_level.value then
      { st with
        threat_level := threat_level
        escalations :=
          st.escalations ++ [(now, st.threat_level, threat_level)] }
    else st
  let st := { st with violations := st.violations + 1 }
  match threat_level with
  | ThreatLevel.NORMAL => st
  | ThreatLevel.SUSPICIOUS => st
  | ThreatLevel.MODERATE => block_peer st now config.temp_block_duration
  | ThreatLevel.HIGH => block_peer st now config.extended_block_duration
  | ThreatLevel.CRITICAL =>
      if config.enable_ip_banning ∧ config.has_ip_ban_callback then
        if st.ip_banned then st else { st with ip_banned := true }
      else block_peer st now 86400

/-- Model of `_check_rate_limit(peer_id)` (`rate_limit.py:177-222`): reject
banned peers, expire or enforce a temporary block, trim the request
deque to the long window, count the three windows, run threat
detection (handling any threat and rejecting the request), else record
the request and accept. Returns `(is_allowed, new per-peer state)`. -/
def check_rate_limit (config : RateLimitConfig) (st : RLState)
    (now : ℚ) : Bool × RLState :=
  if st.ip_banned then
    (false, { st with blocked_requests := st.blocked_requests + 1 })
  else
    let blockStep : Option ℚ × Bool :=
      match st.blocked_until with
      | some unblock_time =>
          if now < unblock_time then (some unblock_time, true)
          else (none, false)
      | none => (none, false)
    if blockStep.2 then
      (false, { st with blocked_requests := st.blocked_requests + 1 })
    else
      let st := { st with blocked_until := blockStep.1 }
      let cutoff_time := now - config.long_window
      let requests := st.requests.dropWhile (fun tm => tm < cutoff_time)
      let st := { st with requests := requests }
      let short_count :=
        (requests.filter (fun tm => tm > now - config.short_window)).length
      let medium_count :=
        (requests.filter (fun tm => tm > now - config.medium_window)).length
      let long_count := requests.length
      match detect_threat config st.violations short_count medium_count
          long_count with
      | some threat_level => (false, handle_threat config st now threat_level)
      | none =>
          (true,
            { st with
              requests := requests ++ [now]
              total_requests := st.total_requests + 1 })

/-- Model of `_record_violation(peer_id, reason)` (`rate_limit.py:308-314`):
bump the violation count, and when it reaches 5 escalate through
`_handle_threat` at SUSPICIOUS. -/
def record_violation (config : RateLimitConfig) (st : RLState)
    (now : ℚ) : RLState :=
  let st := { st with violations := st.violations + 1 }
  if st.violations ≥ 5 then
    handle_threat config st now ThreatLevel.SUSPICIOUS
  else st

/-- One state-mutating entry point of the authorizer touching one
peer's state: a rate-limit check at some time, a recorded violation,
or a direct threat handling. -/
inductive RLOp
  | check (now : ℚ)
  | violation (now : ℚ)
  | threat (now : ℚ) (level : ThreatLevel)

/-- Apply one authorizer operation to a peer's state. -/
def applyRLOp (config : RateLimitConfig) (st : RLState) : RLOp → RLState
  | RLOp.check now => (check_rate_limit config st now).2
  | RLOp.violation now => record_violation config st now
  | RLOp.threat now level => handle_threat config st now level

/-- Apply a sequence of authorizer operations to a peer's state. -/
def applyRLOps (config : RateLimitConfig) (st : RLState) :
    List RLOp → RLState
  | [] => st
  | op :: ops => applyRLOps config (applyRLOp config st op) ops

/-! ## Theorems -/

/-- Helper: the result of `compare_consensus_data` is `true` whenever
the two score lists have the same underlying set. -/
theorem compare_success_of_set_eq (prev : Option (Finset Score))
    (chain_prev : Option ConsensusDataC) (my_data validator_data : List Score)
    (h : my_data.toFinset = validator_data.toFinset) :
    (compare_consensus_data prev chain_prev my_data validator_data).1 = true := by
  unfold compare_consensus_data
  by_cases h0 : validator_data.length = 0 ∧ my_data.length = 0
  · simp [h0]
  · simp [h0, h]
    split <;> rfl

/-- Helper: `compare_consensus_data` depends on its score-list
arguments only through their underlying sets. -/
theorem compare_congr (prev : Option (Finset Score))
    (chain_prev : Option ConsensusDataC) (my my' vd vd' : List Score)
    (hm : my.toFinset = my'.toFinset) (hv : vd.toFinset = vd'.toFinset) :
    compare_consensus_data prev chain_prev my vd =
      compare_consensus_data prev chain_prev my' vd' := by
  unfold compare_consensus_data
  have hme : my = [] ↔ my' = [] := by
    rw [← List.toFinset_eq_empty_iff, ← List.toFinset_eq_empty_iff, hm]
  have hve : vd = [] ↔ vd' = [] := by
    rw [← List.toFinset_eq_empty_iff, ← List.toFinset_eq_empty_iff, hv]
  by_cases h0 : vd.length = 0 ∧ my.length = 0
  · have h0' : vd'.length = 0 ∧ my'.length = 0 := by
      obtain ⟨h1, h2⟩ := h0
      exact ⟨by simpa using hve.mp (by simpa using h1),
        by simpa using hme.mp (by simpa using h2)⟩
    simp [h0, h0']
  · have h0' : ¬ (vd'.length = 0 ∧ my'.length = 0) := by
      intro hc
      exact h0 ⟨by simpa using hve.mpr (by simpa using hc.1),
        by simpa using hme.mpr (by simpa using hc.2)⟩
    simp only [if_neg h0, if_neg h0', hm, hv]

/-- C6: `compare_consensus_data(my_data, validator_data, epoch)` returns
`True` whenever the two inputs are equal as sets of
`(node_id, score)` pairs — in particular for permutations of each
other and for lists differing only in duplicated entries — and, more
generally, its entire result is unchanged when either argument is
replaced by any list with the same underlying set, so ordering and
duplicates never affect the result. -/
theorem compare_consensus_data_set_equality :
    (∀ (prev : Option (Finset Score)) (chain_prev : Option ConsensusDataC)
        (my_data validator_data : List Score),
        my_data.toFinset = validator_data.toFinset →
        (compare_consensus_data prev chain_prev my_data validator_data).1 =
          true)
    ∧ (∀ (prev : Option (Finset Score)) (chain_prev : Option ConsensusDataC)
        (my_data validator_data : List Score),
        my_data.Perm validator_data →
        (compare_consensus_data prev chain_prev my_data validator_data).1 =
          true)
    ∧ (∀ (prev : Option (Finset Score)) (chain_prev : Option ConsensusDataC)
        (my my' vd vd' : List Score),
        my.toFinset = my'.toFinset → vd.toFinset = vd'.toFinset →
        compare_consensus_data prev chain_prev my vd =
          compare_consensus_data prev chain_prev my' vd') :=
  ⟨fun prev chain_prev my vd h => compare_success_of_set_eq prev chain_prev my vd h,
   fun prev chain_prev my vd h =>
     compare_success_of_set_eq prev chain_prev my vd
       (List.toFinset_eq_of_perm _ _ h),
   fun prev chain_prev my my' vd vd' hm hv =>
     compare_congr prev chain_prev my my' vd vd' hm hv⟩

/-- Witness for C6 at concrete inputs. -/
theorem compare_consensus_data_set_equality_witness :
    (compare_consensus_data none none
      [⟨1, 10⟩, ⟨2, 20⟩] [⟨2, 20⟩, ⟨1, 10⟩, ⟨1, 10⟩]).1 = true :=
  compare_consensus_data_set_equality.1 none none
    [⟨1, 10⟩, ⟨2, 20⟩] [⟨2, 20⟩, ⟨1, 10⟩, ⟨1, 10⟩] (by decide)

/-- Helper: in the attestor loop entered with no in-memory
previous-epoch data, if every consensus datum the chain can return
fails the comparison, no attest is ever emitted. -/
theorem attestorLoop_no_attest_of_compare_false
    (current_epoch subnet_node_id : Int) (scores : List Score)
    (env : RunEnv)
    (h : ∀ i d, env.consensusAt i = some d →
      (compare_consensus_data none env.prevConsensus scores
        (d.data.getD [])).1 = false) :
    ∀ fuel cIdx eIdx acts prev',
      attestorLoop current_epoch subnet_node_id scores env none none
        cIdx eIdx 0 [] fuel = some (acts, prev') →
      attestCount acts = 0 := by
  intro fuel
  induction fuel with
  | zero => intro cIdx eIdx acts prev' hrun; simp [attestorLoop] at hrun
  | succ n ih =>
      intro cIdx eIdx acts prev' hrun
      rw [attestorLoop] at hrun
      by_cases he : env.epochAt eIdx ≠ current_epoch
      · rcases hc : env.consensusAt cIdx with _ | d <;>
          · simp [hc, he] at hrun
            cases hrun.1
            simp [attestCount]
      · rcases hc : env.consensusAt cIdx with _ | d
        · simp [hc, he] at hrun
          exact ih _ _ _ _ hrun
        · have hcmp := h cIdx d hc
          simp [hc, he, hcmp] at hrun
          cases hrun.1
          simp [attestCount]

/-- C7: on a score mismatch with no in-memory previous-epoch data,
`compare_consensus_data` falls back to the chain's previous-epoch
`ConsensusData`: the mismatch is treated as a match iff that
submission's attestation ratio `len(attests)/len(subnet_nodes)` is
at least `0.66` and the symmetric difference of the two score sets is
a subset of the previous epoch's score set; and whenever the
comparison comes out false — in particular when the ratio is below
`0.66` — the attestor loop emits no attest. -/
theorem compare_fallback_attestation_ratio :
    (∀ (cd : ConsensusDataC) (pd my_data validator_data : List Score),
      validator_data.toFinset ≠ my_data.toFinset →
      cd.data = some pd →
      cd.subnet_nodes ≠ [] →
      ((compare_consensus_data none (some cd) my_data validator_data).1 =
          true ↔
        ((66 / 100 : ℚ) ≤
            (cd.attests.length : ℚ) / (cd.subnet_nodes.length : ℚ) ∧
          symmDiff validator_data.toFinset my_data.toFinset ⊆
            pd.toFinset)))
    ∧ (∀ (current_epoch subnet_node_id : Int) (scores : List Score)
        (env : RunEnv),
      (∀ i d, env.consensusAt i = some d →
        (compare_consensus_data none env.prevConsensus scores
          (d.data.getD [])).1 = false) →
      ∀ fuel cIdx eIdx acts prev',
        attestorLoop current_epoch subnet_node_id scores env none none
          cIdx eIdx 0 [] fuel = some (acts, prev') →
        attestCount acts = 0) := by
  constructor
  · intro cd pd my_data validator_data hne hdata _hnodes
    have h0 : ¬ (validator_data.length = 0 ∧ my_data.length = 0) := by
      rintro ⟨h1, h2⟩
      rw [List.length_eq_zero] at h1 h2
      exact hne (by rw [h1, h2])
    unfold compare_consensus_data
    rw [if_neg h0]
    simp only [if_neg hne, hdata, attestation_ratio_lt]
    by_cases hr : (cd.attests.length : ℚ) / (cd.subnet_nodes.length : ℚ) <
        66 / 100
    · simp [hr, not_le.mpr hr]
    · simp [hr, not_lt.mp hr]
  · exact fun current_epoch subnet_node_id scores env h =>
      attestorLoop_no_attest_of_compare_false current_epoch
        subnet_node_id scores env h

/-- A previous-epoch chain submission with attestation ratio
`1/2 < 0.66`: one attestation, two subnet nodes. -/
def cdLowRatio : ConsensusDataC := ⟨[(9, 0)], [1, 2], some [⟨3, 1⟩]⟩

/-- An attestor environment whose chain never returns consensus data
and whose epoch has already advanced past epoch 5. -/
def envPastEpoch : RunEnv :=
  ⟨fun _ => CVal.num 1, fun _ => 4, fun _ => none, none, fun _ => true⟩

/-- Witness for C7 at concrete inputs: with the fallback submission
only half-attested, the mismatch `{(1,1)}` vs `{(1,1),(3,1)}` stays a
mismatch. -/
theorem compare_fallback_attestation_ratio_witness :
    (compare_consensus_data none (some cdLowRatio)
      [⟨1, 1⟩] [⟨1, 1⟩, ⟨3, 1⟩]).1 = false ∧ attestCount [] = 0 := by
  have h1 := compare_fallback_attestation_ratio.1 cdLowRatio [⟨3, 1⟩]
    [⟨1, 1⟩] [⟨1, 1⟩, ⟨3, 1⟩] (by decide) rfl (by decide)
  constructor
  · cases hb : (compare_consensus_data none (some cdLowRatio)
        [⟨1, 1⟩] [⟨1, 1⟩, ⟨3, 1⟩]).1
    · rfl
    · exact absurd (h1.mp hb).1 (by norm_num [cdLowRatio])
  · exact compare_fallback_attestation_ratio.2 5 1 [⟨1, 1⟩] envPastEpoch
      (fun i d hd => by simp [envPastEpoch] at hd) 1 0 0 [] none rfl

/-- C2 (refuting evaluation): a freshly signed request accepted with a
passing stake check leaves the nonce store untouched, so an exact
replay of the same nonce 10 seconds later — well inside the
`3 · 60 s` window — is accepted again instead of being rejected. -/
theorem replay_after_accept_is_accepted :
    validate_request [] 1000 ⟨true, true, 1000, 7⟩ (PosOutcome.ok true) =
      (true, []) ∧
    validate_request [] 1010 ⟨true, true, 1000, 7⟩ (PosOutcome.ok true) =
      (true, []) := by
  constructor <;>
    norm_num [validate_request, nonce_seen, MAX_CLIENT_SERVICER_TIME_DIFF]

/-- C10: in `ProofOfStakeAuthorizer.validate_request`, the nonce-store
statement is reachable only through the exception handler of the stake
query: a normal `proof_of_stake` return is passed through as the
result with the nonce store unchanged (on every path), while a raised
exception — past the signature, service-key, clock, and replay
checks — yields `True` with the nonce recorded until `now + 3 · 60 s`. -/
theorem pos_nonce_store_only_on_exception :
    (∀ (store : List (Nat × ℚ)) (now : ℚ) (msg : AuthMsg) (b : Bool),
        (validate_request store now msg (PosOutcome.ok b)).2 = store)
    ∧ (∀ (store : List (Nat × ℚ)) (now : ℚ) (msg : AuthMsg) (b : Bool),
        msg.sig_valid = true → msg.service_pk_matches = true →
        |msg.time - now| ≤ MAX_CLIENT_SERVICER_TIME_DIFF →
        nonce_seen store now msg.nonce = false →
        validate_request store now msg (PosOutcome.ok b) = (b, store))
    ∧ (∀ (store : List (Nat × ℚ)) (now : ℚ) (msg : AuthMsg),
        msg.sig_valid = true → msg.service_pk_matches = true →
        |msg.time - now| ≤ MAX_CLIENT_SERVICER_TIME_DIFF →
        nonce_seen store now msg.nonce = false →
        validate_request store now msg PosOutcome.exn =
          (true,
            (msg.nonce, now + MAX_CLIENT_SERVICER_TIME_DIFF * 3) ::
              store)) := by
  refine ⟨?_, ?_, ?_⟩
  · intro store now msg b
    unfold validate_request
    repeat' split
    all_goals first | rfl | simp_all
  · intro store now msg b h1 h2 h3 h4
    simp [validate_request, h1, h2, h4, not_lt.mpr h3]
  · intro store now msg h1 h2 h3 h4
    simp [validate_request, h1, h2, h4, not_lt.mpr h3]

/-- Witness for C10 at concrete inputs. -/
theorem pos_nonce_store_only_on_exception_witness :
    validate_request [] 1000 ⟨true, true, 1000, 7⟩ (PosOutcome.ok false) =
      (false, []) ∧
    validate_request [] 1000 ⟨true, true, 1000, 7⟩ PosOutcome.exn =
      (true, [(7, 1180)]) := by
  constructor
  · exact pos_nonce_store_only_on_exception.2.1 [] 1000
      ⟨true, true, 1000, 7⟩ false rfl rfl
      (by norm_num [MAX_CLIENT_SERVICER_TIME_DIFF]) rfl
  · have h := pos_nonce_store_only_on_exception.2.2 [] 1000
      ⟨true, true, 1000, 7⟩ rfl rfl
      (by norm_num [MAX_CLIENT_SERVICER_TIME_DIFF]) rfl
    rw [h]
    norm_num [MAX_CLIENT_SERVICER_TIME_DIFF]

/-- A commit-key record from a peer able to pass every other check:
within quota (fresh tracker) and far below the expiration cap. -/
def commitRecord : DhtRecordM := ⟨DhtKey.commitEpoch 3, some "peer1", 100⟩

/-- C3 (refuting evaluation): the commit branch of the predicate has no
lower phase bound — a PUT of `commit_epoch_3` at
`percent_complete = 0.10`, and likewise at exactly `0.15`, is accepted
(the code only rejects `percent_complete > COMMIT_DEADLINE = 0.5`),
although the claim and the module's own docstring confine commits to
the strict 15–50 % window. -/
theorem commit_accepted_below_lower_bound :
    (mock_commit_reveal_call ⟨3, 1 / 10, 0, 660, 1200, 1200⟩ []
      commitRecord RequestType.POST).1 = true ∧
    (mock_commit_reveal_call ⟨3, 3 / 20, 0, 660, 1200, 1200⟩ []
      commitRecord RequestType.POST).1 = true := by
  constructor <;>
    (norm_num [mock_commit_reveal_call, get_key_type,
      has_exceeded_store_limit, trackerCount, per_peer_epoch_limits,
      cleanup_old_epochs, COMMIT_DEADLINE, commitRecord]
     rfl)

/-- A peer state whose last second holds exactly `max_burst = 20`
requests — enough for the SUSPICIOUS burst trigger and nothing
higher. -/
def burstState : RLState :=
  ⟨[1000, 1000, 1000, 1000, 1000, 1000, 1000, 1000, 1000, 1000,
    1000, 1000, 1000, 1000, 1000, 1000, 1000, 1000, 1000, 1000],
   ThreatLevel.NORMAL, none, 0, false, [], 20, 0⟩

/-- C5 counterexample: a request that triggers exactly the SUSPICIOUS
threat level (burst of 20 in the last second under the default
configuration) is rejected by `_check_rate_limit` — `validate_request`
then returns `False` — contradicting the claim that such a request is
still accepted. -/
theorem suspicious_request_rejected :
    detect_threat defaultRateLimitConfig 0 20 20 20 =
      some ThreatLevel.SUSPICIOUS ∧
    (check_rate_limit defaultRateLimitConfig burstState 1000).1 = false := by
  constructor
  · norm_num [detect_threat, defaultRateLimitConfig]
  · norm_num [check_rate_limit, detect_threat, defaultRateLimitConfig,
      burstState, handle_threat, block_peer]

/-- C5 (amended): a request that triggers only the SUSPICIOUS threat
level of a peer that is neither banned nor temporarily blocked is
rejected (the rate-limit check returns not-allowed, so
`validate_request` returns `False`), but the handling is log-only in
the sense that the peer is not added to `blocked_peers` and not
IP-banned, so future requests are not blocked. -/
theorem suspicious_rejects_without_blocking :
    ∀ (config : RateLimitConfig) (st : RLState) (now : ℚ),
      st.ip_banned = false → st.blocked_until = none →
      detect_threat config st.violations
        ((st.requests.dropWhile
            (fun tm => tm < now - config.long_window)).filter
          (fun tm => tm > now - config.short_window)).length
        ((st.requests.dropWhile
            (fun tm => tm < now - config.long_window)).filter
          (fun tm => tm > now - config.medium_window)).length
        (st.requests.dropWhile
          (fun tm => tm < now - config.long_window)).length =
        some ThreatLevel.SUSPICIOUS →
      (check_rate_limit config st now).1 = false ∧
      (check_rate_limit config st now).2.blocked_until = none ∧
      (check_rate_limit config st now).2.ip_banned = false := by
  intro config st now hban hblock hdet
  unfold check_rate_limit
  rw [hban, hblock]
  simp [hdet, handle_threat, block_peer]
  split <;> simp [hban]

/-- Witness for C5's amended theorem at the concrete burst state. -/
theorem suspicious_rejects_without_blocking_witness :
    (check_rate_limit defaultRateLimitConfig burstState 1000).1 = false ∧
    (check_rate_limit defaultRateLimitConfig burstState
      1000).2.blocked_until = none ∧
    (check_rate_limit defaultRateLimitConfig burstState
      1000).2.ip_banned = false :=
  suspicious_rejects_without_blocking defaultRateLimitConfig burstState
    1000 rfl rfl
    (by norm_num [detect_threat, defaultRateLimitConfig, burstState])

/-- Helper: `_handle_threat` stores the detected level exactly when it
is strictly greater than the current one. -/
theorem handle_threat_level_eq (config : RateLimitConfig) (st : RLState)
    (now : ℚ) (level : ThreatLevel) :
    (handle_threat config st now level).threat_level =
      if level.value > st.threat_level.value then level
      else st.threat_level := by
  cases level <;> unfold handle_threat block_peer <;>
    (repeat' split) <;> simp_all

/-- Helper: `_handle_threat` never lowers the stored threat level. -/
theorem handle_threat_mono (config : RateLimitConfig) (st : RLState)
    (now : ℚ) (level : ThreatLevel) :
    st.threat_level.value ≤
      (handle_threat config st now level).threat_level.value := by
  rw [handle_threat_level_eq]
  by_cases h : level.value > st.threat_level.value
  · rw [if_pos h]
    exact Nat.le_of_lt h
  · rw [if_neg h]

/-- Helper: `_handle_threat` applied to any intermediate state carrying
the same stored threat level never lowers it. -/
theorem handle_threat_mono_of_eq (config : RateLimitConfig)
    (st st' : RLState) (now : ℚ) (level : ThreatLevel)
    (h : st'.threat_level = st.threat_level) :
    st.threat_level.value ≤
      (handle_threat config st' now level).threat_level.value :=
  h ▸ handle_threat_mono config st' now level

/-- Helper: `_check_rate_limit` never lowers the stored threat level. -/
theorem check_rate_limit_mono (config : RateLimitConfig) (st : RLState)
    (now : ℚ) :
    st.threat_level.value ≤
      (check_rate_limit config st now).2.threat_level.value := by
  simp only [check_rate_limit]
  repeat' split
  all_goals
    first
      | exact Nat.le_refl _
      | exact handle_threat_mono_of_eq _ _ _ _ _ rfl

/-- Helper: `_record_violation` never lowers the stored threat level. -/
theorem record_violation_mono (config : RateLimitConfig) (st : RLState)
    (now : ℚ) :
    st.threat_level.value ≤
      (record_violation config st now).threat_level.value := by
  simp only [record_violation]
  split
  · exact handle_threat_mono_of_eq _ _ _ _ _ rfl
  · exact Nat.le_refl _

/-- Helper: no single authorizer operation lowers a peer's stored
threat level. -/
theorem applyRLOp_mono (config : RateLimitConfig) (st : RLState)
    (op : RLOp) :
    st.threat_level.value ≤ (applyRLOp config st op).threat_level.value := by
  cases op with
  | check now => exact check_rate_limit_mono config st now
  | violation now => exact record_violation_mono config st now
  | threat now level => exact handle_threat_mono config st now level

/-- Helper: no sequence of authorizer operations lowers a peer's
stored threat level. -/
theorem applyRLOps_mono (config : RateLimitConfig) (ops : List RLOp) :
    ∀ st : RLState,
      st.threat_level.value ≤
        (applyRLOps config st ops).threat_level.value := by
  induction ops with
  | nil => intro st; exact le_refl _
  | cons op ops ih =>
      intro st
      exact le_trans (applyRLOp_mono config st op)
        (ih (applyRLOp config st op))

/-- C9: the stored threat level of a peer is monotonically
non-decreasing — `_handle_threat` replaces it exactly when the newly
detected level is strictly greater than the stored one, and no
sequence of authorizer operations (rate-limit checks, violation
recordings, threat handlings) ever lowers it. -/
theorem threat_level_monotone :
    (∀ (config : RateLimitConfig) (st : RLState) (now : ℚ)
        (level : ThreatLevel),
      (handle_threat config st now level).threat_level =
        if level.value > st.threat_level.value then level
        else st.threat_level)
    ∧ (∀ (config : RateLimitConfig) (ops : List RLOp) (st : RLState),
      st.threat_level.value ≤
        (applyRLOps config st ops).threat_level.value) :=
  ⟨handle_threat_level_eq, fun config ops st => applyRLOps_mono config ops st⟩

/-- Helper: `countP` is invariant under list reversal. -/
theorem countP_reverse (p : ChainAction → Bool) (l : List ChainAction) :
    l.reverse.countP p = l.countP p := by
  simp [List.countP_eq_length_filter]

/-- Helper: the attestor loop emits no further `propose` and at most
one further successful `attest` beyond its accumulator. -/
theorem attestorLoop_counts (current_epoch subnet_node_id : Int)
    (scores : List Score) (env : RunEnv) :
    ∀ (fuel : Nat) (cd : Option ConsensusDataC)
      (prev : Option (Finset Score)) (cIdx eIdx aIdx : Nat)
      (acc acts : List ChainAction) (prev' : Option (Finset Score)),
      attestorLoop current_epoch subnet_node_id scores env cd prev
        cIdx eIdx aIdx acc fuel = some (acts, prev') →
      proposeCount acts = proposeCount acc ∧
      attestSuccessCount acts ≤ attestSuccessCount acc + 1 := by
  intro fuel
  induction fuel with
  | zero =>
      intro cd prev cIdx eIdx aIdx acc acts prev' hrun
      simp [attestorLoop] at hrun
  | succ n ih =>
      intro cd prev cIdx eIdx aIdx acc acts prev' hrun
      have hbreak : ∀ p : Option (Finset Score),
          some (acc.reverse, p) =
            (some (acts, prev') :
              Option (List ChainAction × Option (Finset Score))) →
          proposeCount acts = proposeCount acc ∧
          attestSuccessCount acts ≤ attestSuccessCount acc + 1 := by
        intro p hp
        cases hp
        refine ⟨countP_reverse _ _, ?_⟩
        simp only [attestSuccessCount, countP_reverse]
        omega
      have hattest : ∀ (d : ConsensusDataC) (cI eI : Nat)
          (p : Option (Finset Score)),
          (if env.attestOkAt aIdx then
              some ((ChainAction.attest (env.attestOkAt aIdx) ::
                acc).reverse, p)
            else
              attestorLoop current_epoch subnet_node_id scores env
                (some d) p cI eI (aIdx + 1)
                (ChainAction.attest (env.attestOkAt aIdx) :: acc) n) =
            some (acts, prev') →
          proposeCount acts = proposeCount acc ∧
          attestSuccessCount acts ≤ attestSuccessCount acc + 1 := by
        intro d cI eI p hp
        cases hs : env.attestOkAt aIdx
        · rw [hs, if_neg Bool.false_ne_true] at hp
          obtain ⟨h1, h2⟩ := ih _ _ _ _ _ _ _ _ hp
          constructor
          · rw [h1]
            simp [proposeCount, List.countP_cons]
          · refine le_trans h2 ?_
            simp [attestSuccessCount, List.countP_cons]
        · rw [hs, if_pos rfl] at hp
          cases hp
          constructor
          · simp [proposeCount, countP_reverse, List.countP_cons]
          · simp only [attestSuccessCount, countP_reverse,
              List.countP_cons]
            simp
      rcases cd with _ | d
      · rw [attestorLoop] at hrun
        rcases hc : env.consensusAt cIdx with _ | d
        · simp only [hc] at hrun
          by_cases he : env.epochAt eIdx ≠ current_epoch
          · rw [if_pos he] at hrun
            exact hbreak _ hrun
          · rw [if_neg he] at hrun
            exact ih _ _ _ _ _ _ _ _ hrun
        · simp only [hc] at hrun
          by_cases he : env.epochAt eIdx ≠ current_epoch
          · rw [if_pos he] at hrun
            exact hbreak _ hrun
          · rw [if_neg he] at hrun
            by_cases hcmp : (compare_consensus_data prev
                env.prevConsensus scores (d.data.getD [])).1 = true
            · rw [if_pos hcmp] at hrun
              by_cases hmem :
                  subnet_node_id ∈ d.attests.map Prod.fst
              · rw [if_pos hmem] at hrun
                exact hbreak _ hrun
              · rw [if_neg hmem] at hrun
                exact hattest _ _ _ _ hrun
            · rw [if_neg hcmp] at hrun
              exact hbreak _ hrun
      · rw [attestorLoop] at hrun
        by_cases he : env.epochAt eIdx ≠ current_epoch
        · rw [if_pos he] at hrun
          exact hbreak _ hrun
        · rw [if_neg he] at hrun
          by_cases hcmp : (compare_consensus_data prev
              env.prevConsensus scores (d.data.getD [])).1 = true
          · rw [if_pos hcmp] at hrun
            by_cases hmem : subnet_node_id ∈ d.attests.map Prod.fst
            · rw [if_pos hmem] at hrun
              exact hbreak _ hrun
            · rw [if_neg hmem] at hrun
              exact hattest _ _ _ _ hrun
          · rw [if_neg hcmp] at hrun
            exact hbreak _ hrun

/-- Helper: if every consensus datum the chain can return already
lists the node among its attestations, the attestor loop (entered with
an empty action accumulator and no cached datum) emits no attest. -/
theorem attestorLoop_no_attest_of_attested (current_epoch subnet_node_id : Int)
    (scores : List Score) (env : RunEnv)
    (h : ∀ i d, env.consensusAt i = some d →
      subnet_node_id ∈ d.attests.map Prod.fst) :
    ∀ fuel prev cIdx eIdx acts prev',
      attestorLoop current_epoch subnet_node_id scores env none prev
        cIdx eIdx 0 [] fuel = some (acts, prev') →
      attestCount acts = 0 := by
  intro fuel
  induction fuel with
  | zero => intro prev cIdx eIdx acts prev' hrun; simp [attestorLoop] at hrun
  | succ n ih =>
      intro prev cIdx eIdx acts prev' hrun
      rw [attestorLoop] at hrun
      rcases hc : env.consensusAt cIdx with _ | d
      · simp only [hc] at hrun
        by_cases he : env.epochAt eIdx ≠ current_epoch
        · rw [if_pos he] at hrun
          cases hrun
          rfl
        · rw [if_neg he] at hrun
          exact ih _ _ _ _ _ hrun
      · simp only [hc] at hrun
        by_cases he : env.epochAt eIdx ≠ current_epoch
        · rw [if_pos he] at hrun
          cases hrun
          rfl
        · rw [if_neg he] at hrun
          by_cases hcmp : (compare_consensus_data prev
              env.prevConsensus scores (d.data.getD [])).1 = true
          · rw [if_pos hcmp, if_pos (h cIdx d hc)] at hrun
            cases hrun
            rfl
          · rw [if_neg hcmp] at hrun
            cases hrun
            rfl

/-- C8: for fixed chain responses, an execution of
`run_consensus(current_epoch)` emits at most one `propose_attestation`
and at most one successful `attest`; moreover the validator branch
emits no `propose_attestation` at all when
`get_consensus_data_formatted(subnet_id, current_epoch)` is already
non-null, and no `attest` is emitted when the node's
`subnet_node_id` already appears in the returned `consensus_data.attests`
— so a repeated execution against chain state reflecting the first
execution's transaction emits nothing further. -/
theorem run_consensus_at_most_one :
    (∀ (current_epoch subnet_node_id : Int) (scores : List Score)
        (prev : Option (Finset Score)) (env : RunEnv) (fuel : Nat)
        (acts : List ChainAction) (prev' : Option (Finset Score)),
      run_consensus current_epoch subnet_node_id scores prev env fuel =
        some (acts, prev') →
      proposeCount acts ≤ 1 ∧ attestSuccessCount acts ≤ 1)
    ∧ (∀ (current_epoch subnet_node_id : Int) (scores : List Score)
        (prev : Option (Finset Score)) (env : RunEnv) (fuel : Nat)
        (acts : List ChainAction) (prev' : Option (Finset Score))
        (d : ConsensusDataC),
      env.consensusAt 0 = some d →
      run_consensus current_epoch subnet_node_id scores prev env fuel =
        some (acts, prev') →
      proposeCount acts = 0)
    ∧ (∀ (current_epoch subnet_node_id : Int) (scores : List Score)
        (prev : Option (Finset Score)) (env : RunEnv) (fuel : Nat)
        (acts : List ChainAction) (prev' : Option (Finset Score)),
      (∀ i d, env.consensusAt i = some d →
        subnet_node_id ∈ d.attests.map Prod.fst) →
      run_consensus current_epoch subnet_node_id scores prev env fuel =
        some (acts, prev') →
      attestCount acts = 0) := by
  refine ⟨?_, ?_, ?_⟩
  · intro current_epoch subnet_node_id scores prev env fuel acts prev' hrun
    unfold run_consensus at hrun
    split at hrun
    · cases hrun
    · rename_i v vIdx eIdx heq
      by_cases hv : v = CVal.pyNone
      · rw [if_pos hv] at hrun
        cases hrun
        exact ⟨by simp [proposeCount], by simp [attestSuccessCount]⟩
      · rw [if_neg hv] at hrun
        by_cases hvn : v = CVal.num subnet_node_id
        · rw [if_pos hvn] at hrun
          rcases hc : env.consensusAt 0 with _ | d <;>
            simp only [hc] at hrun <;> cases hrun
          · exact ⟨by simp [proposeCount, List.countP_cons],
              by simp [attestSuccessCount, List.countP_cons]⟩
          · exact ⟨by simp [proposeCount], by simp [attestSuccessCount]⟩
        · rw [if_neg hvn] at hrun
          obtain ⟨h1, h2⟩ := attestorLoop_counts current_epoch
            subnet_node_id scores env fuel none prev 0 eIdx 0 [] acts
            prev' hrun
          refine ⟨?_, ?_⟩
          · rw [h1]
            simp [proposeCount]
          · refine le_trans h2 ?_
            simp [attestSuccessCount]
  · intro current_epoch subnet_node_id scores prev env fuel acts prev' d
      hd hrun
    unfold run_consensus at hrun
    split at hrun
    · cases hrun
    · rename_i v vIdx eIdx heq
      by_cases hv : v = CVal.pyNone
      · rw [if_pos hv] at hrun
        cases hrun
        rfl
      · rw [if_neg hv] at hrun
        by_cases hvn : v = CVal.num subnet_node_id
        · rw [if_pos hvn] at hrun
          simp only [hd] at hrun
          cases hrun
          rfl
        · rw [if_neg hvn] at hrun
          obtain ⟨h1, _⟩ := attestorLoop_counts current_epoch
            subnet_node_id scores env fuel none prev 0 eIdx 0 [] acts
            prev' hrun
          rw [h1]
          rfl
  · intro current_epoch subnet_node_id scores prev env fuel acts prev' h
      hrun
    unfold run_consensus at hrun
    split at hrun
    · cases hrun
    · rename_i v vIdx eIdx heq
      by_cases hv : v = CVal.pyNone
      · rw [if_pos hv] at hrun
        cases hrun
        rfl
      · rw [if_neg hv] at hrun
        by_cases hvn : v = CVal.num subnet_node_id
        · rw [if_pos hvn] at hrun
          rcases hc : env.consensusAt 0 with _ | d <;>
            simp only [hc] at hrun <;> cases hrun
          · simp [attestCount, List.countP_cons]
          · rfl
        · rw [if_neg hvn] at hrun
          exact attestorLoop_no_attest_of_attested current_epoch
            subnet_node_id scores env h fuel prev 0 eIdx acts prev' hrun

/-- A consensus datum for epoch 5 in which node 2 already appears among
the attestations. -/
def cdAttested : ConsensusDataC := ⟨[(2, 0)], [1, 2], some []⟩

/-- Chain responses for a repeated `run_consensus(5)` of attestor
node 2: the proposal is posted and node 2's attestation is already
on chain. -/
def envAttested : RunEnv :=
  ⟨fun _ => CVal.num 1, fun _ => 5, fun _ => some cdAttested, none,
    fun _ => true⟩

/-- Witness for C8: a repeated execution against `envAttested` emits
no chain action at all. -/
theorem run_consensus_at_most_one_witness :
    proposeCount [] ≤ 1 ∧ attestSuccessCount [] ≤ 1 ∧
    proposeCount [] = 0 ∧ attestCount [] = 0 := by
  have h1 := run_consensus_at_most_one.1 5 2 [] none envAttested 3 []
    (some ∅) rfl
  have h2 := run_consensus_at_most_one.2.1 5 2 [] none envAttested 3 []
    (some ∅) cdAttested rfl rfl
  have h3 := run_consensus_at_most_one.2.2 5 2 [] none envAttested 3 []
    (some ∅) (fun i d hd => by cases hd; decide) rfl
  exact ⟨h1.1, h1.2, h2, h3⟩

/-- Chain responses under which epoch 5 never advances, the first
`get_rewards_validator` poll returns `None`, and every later poll
would return node 1. -/
def envSkippedEpoch : RunEnv :=
  ⟨fun n => if n = 0 then CVal.pyNone else CVal.num 1, fun _ => 5,
    fun _ => none, none, fun _ => true⟩

/-- C1 (refuting evaluation): the validator-resolution loop breaks out
on its very first iteration even though the poll returned `None` and
the epoch had not advanced — the break condition
`validator is not None or validator != 'None'` is a tautology — so
`run_consensus` skips the epoch after a single poll (emitting nothing)
although the next poll would have returned validator 1. -/
theorem validator_poll_exits_on_first_none :
    resolveValidatorLoop 5 envSkippedEpoch 0 0 10 =
      some (CVal.pyNone, 1, 1) ∧
    run_consensus 5 2 [] none envSkippedEpoch 10 = some ([], none) ∧
    envSkippedEpoch.epochAt 1 = 5 ∧
    envSkippedEpoch.validatorAt 1 = CVal.num 1 :=
  ⟨rfl, rfl, rfl, rfl⟩

/-- Chain responses with a resolvable slot, a fresh epoch at every
poll, and a subnet the chain never finds. -/
def envVanishedSubnet : ActivateEnv :=
  ⟨fun _ => CVal.num 0, fun n => (n : Int), fun _ => none⟩

/-- Chain responses whose subnet is not found for exactly the first
four epoch polls and active from the fifth on. -/
def envLateActive : ActivateEnv :=
  ⟨fun _ => CVal.num 0, fun n => (n : Int),
    fun n => if n ≤ 3 then none else some "Active"⟩

/-- C4 counterexample: four consecutive not-found epochs do not shut
the consensus process down — after exactly four such epochs the
activation loop is still polling (`none` = fuel for four iterations
exhausted with no exit), the shutdown only fires on the fifth
consecutive not-found epoch, and a subnet that turns active on the
fifth epoch is started normally after four not-founds with no
shutdown at all. -/
theorem activate_survives_four_not_found :
    run_activate_subnet envVanishedSubnet 4 = none ∧
    run_activate_subnet envVanishedSubnet 5 = some ⟨false, true, 5⟩ ∧
    run_activate_subnet envLateActive 9 = some ⟨true, false, 5⟩ :=
  ⟨rfl, rfl, rfl⟩

/-- Helper: one not-found iteration of the activation loop with the
slot already set, a fresh epoch, and the error budget not yet
exhausted retries with `errors_count` incremented. -/
theorem activateLoop_notfound_step (env : ActivateEnv) (s : Int)
    (le : Option Int) (errs sIdx eIdx iIdx fuel : Nat)
    (hinfo : env.infoAt iIdx = none)
    (hfresh : some (env.actEpochAt eIdx) ≠ le)
    (herr : ¬ errs > 3) :
    activateLoop env (some s) le errs sIdx eIdx iIdx (fuel + 1) =
      activateLoop env (some s) (some (env.actEpochAt eIdx)) (errs + 1)
        sIdx (eIdx + 1) (iIdx + 1) fuel := by
  rw [activateLoop]
  simp only [hinfo, if_pos hfresh, if_neg herr]
  rfl

/-- Helper: a not-found iteration with the error budget exhausted
shuts the process down. -/
theorem activateLoop_notfound_shutdown (env : ActivateEnv) (s : Int)
    (le : Option Int) (errs sIdx eIdx iIdx fuel : Nat)
    (hinfo : env.infoAt iIdx = none)
    (hfresh : some (env.actEpochAt eIdx) ≠ le)
    (herr : errs > 3) :
    activateLoop env (some s) le errs sIdx eIdx iIdx (fuel + 1) =
      some ⟨false, true, iIdx + 1⟩ := by
  rw [activateLoop]
  simp only [hinfo, if_pos hfresh, if_pos herr]
  rfl

/-- Helper: the first iteration additionally resolves the slot from
`get_subnet_slot` before the epoch check. -/
theorem activateLoop_slot_notfound_step (env : ActivateEnv) (s : Int)
    (le : Option Int) (errs sIdx eIdx iIdx fuel : Nat)
    (hslot : env.slotAt sIdx = CVal.num s)
    (hinfo : env.infoAt iIdx = none)
    (hfresh : some (env.actEpochAt eIdx) ≠ le)
    (herr : ¬ errs > 3) :
    activateLoop env none le errs sIdx eIdx iIdx (fuel + 1) =
      activateLoop env (some s) (some (env.actEpochAt eIdx)) (errs + 1)
        (sIdx + 1) (eIdx + 1) (iIdx + 1) fuel := by
  rw [activateLoop]
  simp only [hslot, hinfo, if_pos hfresh, if_neg herr]
  rfl

/-- C4 (amended): with the slot resolvable and a fresh chain epoch at
every poll, `get_formatted_subnet_info = None` must be observed on
five consecutive epochs before the loop shuts down
(`errors_count`, incremented after each failed check, must exceed
`max_errors = 3` at check time): after four consecutive not-found
epochs the loop is still polling, and on the fifth it sets the stop
event and returns `False`. -/
theorem activate_shutdown_on_fifth_not_found :
    ∀ (env : ActivateEnv) (s : Int) (k : Nat),
      env.slotAt 0 = CVal.num s →
      (∀ n, env.infoAt n = none) →
      (∀ n, env.actEpochAt (n + 1) ≠ env.actEpochAt n) →
      run_activate_subnet env 4 = none ∧
      run_activate_subnet env (k + 5) = some ⟨false, true, 5⟩ := by
  intro env s k hslot hinfo hdist
  have fresh0 : some (env.actEpochAt 0) ≠ (none : Option Int) := by
    simp
  have fresh : ∀ n, some (env.actEpochAt (n + 1)) ≠
      some (env.actEpochAt n) := by
    intro n
    simp [hdist n]
  constructor
  · unfold run_activate_subnet
    rw [show (4 : Nat) = 3 + 1 from rfl,
      activateLoop_slot_notfound_step env s none 0 0 0 0 3 hslot
        (hinfo 0) fresh0 (by omega),
      show (3 : Nat) = 2 + 1 from rfl,
      activateLoop_notfound_step env s _ 1 1 1 1 2 (hinfo 1) (fresh 0)
        (by omega),
      show (2 : Nat) = 1 + 1 from rfl,
      activateLoop_notfound_step env s _ 2 1 2 2 1 (hinfo 2) (fresh 1)
        (by omega),
      show (1 : Nat) = 0 + 1 from rfl,
      activateLoop_notfound_step env s _ 3 1 3 3 0 (hinfo 3) (fresh 2)
        (by omega)]
    rfl
  · unfold run_activate_subnet
    rw [show k + 5 = (k + 4) + 1 from rfl,
      activateLoop_slot_notfound_step env s none 0 0 0 0 (k + 4) hslot
        (hinfo 0) fresh0 (by omega),
      show k + 4 = (k + 3) + 1 from rfl,
      activateLoop_notfound_step env s _ 1 1 1 1 (k + 3) (hinfo 1)
        (fresh 0) (by omega),
      show k + 3 = (k + 2) + 1 from rfl,
      activateLoop_notfound_step env s _ 2 1 2 2 (k + 2) (hinfo 2)
        (fresh 1) (by omega),
      show k + 2 = (k + 1) + 1 from rfl,
      activateLoop_notfound_step env s _ 3 1 3 3 (k + 1) (hinfo 3)
        (fresh 2) (by omega),
      activateLoop_notfound_shutdown env s _ 4 1 4 4 k (hinfo 4)
        (fresh 3) (by omega)]

/-- Witness for C4's amended theorem at the concrete vanished-subnet
environment. -/
theorem activate_shutdown_on_fifth_not_found_witness :
    run_activate_subnet envVanishedSubnet 4 = none ∧
    run_activate_subnet envVanishedSubnet 6 = some ⟨false, true, 5⟩ :=
  activate_shutdown_on_fifth_not_found envVanishedSubnet 0 1 rfl
    (fun _ => rfl) (fun n => by simp [envVanishedSubnet])

end MeshModel
